import Mathlib

/-!
# OpenPyLivox — verification of the natural-language specification

Shallow embedding of the parts of `openpylivox/openpylivox.py` (v1.1.0) that
the frozen claims C1–C10 are about, together with theorems settling each claim.

Modelling conventions:
* A byte string is a `List Nat` whose elements are < 256 (`Bytes`).
* Python `float` arithmetic on timestamps and durations is modelled exactly
  over `ℚ`; source decimal literals such as `0.00001` become the exact
  rationals they denote (`1/100000`).  The claims settled here depend only on
  differences far larger than double rounding error.
* Fallible code (a Python function that can raise) returns an `Option`.
* `crcmod.mkCrcFun(poly, rev := true, initCrc, xorOut)` computes the
  reflected (LSB-first) CRC: the register starts at `xorOut ^^^ initCrc`,
  each byte is folded in LSB first with the bit-reversed polynomial, and the
  result is `xorOut ^^^ register`.  This is validated below against the
  precomputed heartbeat command frame stored in the source
  (`AA010F0000000004D7000338BA8D0C`), whose CRC-16 and CRC-32 fields were
  produced by the very same `crcmod` calls.
-/

set_option maxRecDepth 20000

namespace OpenPyLivox

/-- All elements of a byte list are actual byte values. -/
def Bytes (bs : List Nat) : Prop := ∀ b ∈ bs, b < 256

/-- Little-endian integer value of a byte list (`int.from_bytes(·, 'little')`). -/
def leBytes : List Nat → Nat
  | [] => 0
  | b :: rest => b + 256 * leBytes rest

/-- `bs[off : off+len]` — a Python slice of a byte string. -/
def slice (bs : List Nat) (off len : Nat) : List Nat := (bs.drop off).take len

/-- Unsigned little-endian 32-bit value read at offset `off`
(`struct.unpack('<I', data[off:off+4])[0]`). -/
def leU32at (bs : List Nat) (off : Nat) : Nat := leBytes (slice bs off 4)

/-- Little-endian signed 16-bit value (`struct.unpack('<h', ·)[0]`). -/
def leI16 (bs : List Nat) : ℤ :=
  let u := leBytes bs
  if u < 32768 then (u : ℤ) else (u : ℤ) - 65536

/-- The four little-endian bytes of a 32-bit value. -/
def toLE4 (n : Nat) : List Nat :=
  [n % 256, n / 256 % 256, n / 65536 % 256, n / 16777216 % 256]

/-! ## CRC-16 and CRC-32 (sensor-defined, via `crcmod`) -/

/-- One LSB-first CRC register step with bit-reversed polynomial `poly`. -/
def crcShift (poly c : Nat) : Nat :=
  if c % 2 = 1 then (c / 2) ^^^ poly else c / 2

/-- Fold one data byte into an LSB-first CRC register. -/
def crcByteR (poly c b : Nat) : Nat := (crcShift poly)^[8] (c ^^^ (b % 256))

/-- Run the reflected CRC register over a byte list. -/
def crcRun (poly init : Nat) (data : List Nat) : Nat :=
  data.foldl (crcByteR poly) init

/-- `_crc16`: `crcmod.mkCrcFun(0x11021, rev=True, initCrc=0x4C49)`.
`0x8408` is the 16-bit reversal of `0x1021`; `xorOut = 0`. -/
def crc16livox (data : List Nat) : Nat := crcRun 0x8408 0x4C49 data

/-- `_crc32`: `crcmod.mkCrcFun(0x104C11DB7, rev=True, initCrc=0x564F580A,
xorOut=0xFFFFFFFF)`.  `0xEDB88320` is the 32-bit reversal of `0x04C11DB7`. -/
def crc32livox (data : List Nat) : Nat :=
  0xFFFFFFFF ^^^ crcRun 0xEDB88320 (0xFFFFFFFF ^^^ 0x564F580A) data

/-- The source's precomputed heartbeat command
`_CMD_HEARTBEAT = AA010F0000000004D7000338BA8D0C`. -/
def cmdHeartbeat : List Nat :=
  [0xAA, 0x01, 0x0F, 0x00, 0x00, 0x00, 0x00, 0x04, 0xD7, 0x00, 0x03,
   0x38, 0xBA, 0x8D, 0x0C]

/-! ## `_parseResp` — frame parsing -/

/-- Result tuple of `_parseResp`:
`(goodData, cmdMessage, dataMessage, dataID, data)`. -/
structure ParsedResp where
  goodData : Bool
  cmdMessage : String
  dataMessage : String
  dataID : String
  data : List Nat
deriving DecidableEq

/-- The `frame_cmd_type` dispatch of `_parseResp`: message text and whether the
frame-type byte is one of the three valid values. -/
def cmdTypeMessage (ft : Nat) : String × Bool :=
  if ft = 0 then ("CMD (request)", true)
  else if ft = 1 then ("ACK (response)", true)
  else if ft = 2 then ("MSG (message)", true)
  else ("", false)

/-- The `frame_data_cmd_set` dispatch of `_parseResp`. -/
def cmdSetMessage (cs : Nat) : String × Bool :=
  if cs = 0 then ("General", true)
  else if cs = 1 then ("Lidar", true)
  else if cs = 2 then ("Hub", true)
  else ("", false)

/-- The stored little-endian CRC-16 at bytes 7–8. -/
def stored16 (bs : List Nat) : Nat := bs.getD 7 0 + 256 * bs.getD 8 0

/-- The stored little-endian CRC-32 in the final four bytes. -/
def stored32 (bs : List Nat) : Nat :=
  bs.getD (bs.length - 4) 0 + 256 * bs.getD (bs.length - 3) 0 +
    65536 * bs.getD (bs.length - 2) 0 + 16777216 * bs.getD (bs.length - 1) 0

/-- The 16-bit little-endian total-length field at bytes 2–3. -/
def lengthField (bs : List Nat) : Nat := bs.getD 2 0 + 256 * bs.getD 3 0

/-- `_parseResp(binData)`.  Faithful to the source: the CRC-16 of bytes
`[0..7)` is compared against bytes 7–8, then the CRC-32 of all bytes but the
last four against the trailing four bytes, then SOF, version and length are
checked; the frame-type and command-set bytes each clear or set `goodData`,
but — exactly as in the source — `dataID` and `data` are assigned whenever the
structural checks pass, even when frame-type or command-set is invalid. -/
def parseResp (binData : List Nat) : ParsedResp :=
  if stored16 binData = crc16livox (slice binData 0 7) then
    if stored32 binData = crc32livox (slice binData 0 (binData.length - 4)) then
      if binData.getD 0 0 = 170 then
        if binData.getD 1 0 = 1 then
          if lengthField binData ≤ 1400 then
            let cm := cmdTypeMessage (binData.getD 4 0)
            let dm := cmdSetMessage (binData.getD 9 0)
            ⟨cm.2 && dm.2, cm.1, dm.1, toString (binData.getD 10 0),
              binData.drop 11⟩
          else ⟨false, "", "", "", []⟩
        else ⟨false, "", "", "", []⟩
      else ⟨false, "", "", "", []⟩
    else ⟨false, "", "", "", []⟩
  else ⟨false, "", "", "", []⟩

/-! ## `_heartbeatThread.run` — reaction to one received frame -/

/-- What the heartbeat loop does after parsing one received frame. -/
inductive HBAction where
  /-- `sys.exit(code)` — the process terminates. -/
  | exit (code : Nat)
  /-- `self.work_state = w` and the loop continues. -/
  | setWorkState (w : Nat)
  /-- "incorrect heartbeat response" (or silent drop); the loop continues. -/
  | note
deriving DecidableEq

/-- The dispatch of `_heartbeatThread.run` on the parsed response fields.
`goodData` is ignored by the source (it binds it to `_`). -/
def heartbeatHandle (ack cmdSet cmdId : String) (payload : List Nat) :
    HBAction :=
  if ack = "ACK (response)" ∧ cmdSet = "General" ∧ cmdId = "3" then
    let ret_code := payload.getD 0 0
    if ret_code ≠ 0 then .note
    else
      let work_state := payload.getD 1 0
      if work_state = 4 then .exit 0 else .setWorkState work_state
  else if ack = "MSG (message)" ∧ cmdSet = "General" ∧ cmdId = "7" then .exit 1
  else .note

/-- One heartbeat-loop reaction to a raw received byte string. -/
def heartbeatStep (bs : List Nat) : HBAction :=
  let p := parseResp bs
  heartbeatHandle p.cmdMessage p.dataMessage p.dataID p.data

/-! ### Concrete frames (all CRCs valid for the codec above) -/

/-- A well-formed heartbeat ACK (`cmd_set` General, `cmd_id` 3) with
`ret_code = 0` and `work_state = 4`. -/
def hbAckWork4 : List Nat :=
  [170, 1, 17, 0, 1, 0, 0, 32, 88, 0, 3, 0, 4, 239, 167, 239, 62]

/-- A well-formed abnormal-status MSG (`cmd_set` General, `cmd_id` 7). -/
def msgAbnormal : List Nat :=
  [170, 1, 16, 0, 2, 0, 0, 0, 188, 0, 7, 9, 211, 172, 155, 106]

/-- A frame with both checksums, SOF, version and length valid but an invalid
frame-type byte (3). -/
def frameBadType : List Nat :=
  [170, 1, 15, 0, 3, 0, 0, 96, 56, 0, 3, 108, 87, 159, 43]

/-! ## `_dataCaptureThread.run_realtime_bin` — per-packet point processing

One record written to the binary container.  The on-disk byte sequence of a
record is `ptBytes ++ <f64 little-endian of ts> ++ d`, where `d` is the single
ASCII digit `str(retNum)` when `retNum = some n` and nothing when
`retNum = none`. -/
structure BinRecord where
  ptBytes : List Nat
  ts : ℚ
  retNum : Option Nat
deriving DecidableEq

/-- The common shape of the per-point loops in `run_realtime_bin`.  For each
index `i` of `idxs` (the source's `for i in range(0, n)`), the 4-byte field at
`pos + checkOff` is read (`coord2` for Cartesian layouts, `coord1` for
spherical ones), the running timestamp is incremented by `inc i`, and the
point's raw bytes are written together with the timestamp (and the ASCII
return-number digit when `marker i` is set) unless the field is zero — in
which case it is counted as a null point; `forceWrite` is the source's
`deviceCheck == 100` bypass.  Returns `(records, numPts, nullPts)`. -/
def captureGo (pkt : List Nat) (size checkOff : Nat) (inc : Nat → ℚ)
    (marker : Nat → Option Nat) (forceWrite : Bool) :
    List Nat → Nat → ℚ → List BinRecord × Nat × Nat
  | [], _, _ => ([], 0, 0)
  | i :: rest, pos, ts =>
    let coordCheck := leU32at pkt (pos + checkOff)
    let ts' := ts + inc i
    let out := captureGo pkt size checkOff inc marker forceWrite rest
      (pos + size) ts'
    if forceWrite = true ∨ coordCheck ≠ 0 then
      (⟨slice pkt pos size, ts', marker i⟩ :: out.1, out.2.1 + 1, out.2.2)
    else (out.1, out.2.1, out.2.2 + 1)

/-- Processing of one point packet by `run_realtime_bin`: `fw` is
`firmwareType`, `dt` the data-type (read from the packet header for
single-return firmware and from the stream's first packet otherwise — assumed
consistent here), `deviceCheck` the numeric device-model check (`100` for a
Mid-100), `t0` the packet timestamp, `pkt` the raw datagram.  Each branch
carries the source's constants: point size, point count, pre-loop timestamp
subtraction, per-iteration increment, and return-number digit. -/
def processPacketBin (fw dt deviceCheck : Nat) (t0 : ℚ) (pkt : List Nat) :
    List BinRecord × Nat × Nat :=
  match fw, dt with
  -- single return firmware, Cartesian: 100 × 13 B, Δ = 0.00001
  | 1, 0 => captureGo pkt 13 4 (fun _ => 1/100000) (fun _ => none)
      (decide (deviceCheck = 100)) (List.range 100) 18 (t0 - 1/100000)
  -- single return firmware, Spherical: 100 × 9 B, Δ = 0.00001
  | 1, 1 => captureGo pkt 9 0 (fun _ => 1/100000) (fun _ => none)
      false (List.range 100) 18 (t0 - 1/100000)
  -- Horizon/Tele-15 Cartesian single return: 96 × 14 B, Δ = 0.000004167
  | 1, 2 => captureGo pkt 14 4 (fun _ => 4167/1000000000) (fun _ => none)
      false (List.range 96) 18 (t0 - 4167/1000000000)
  -- Horizon/Tele-15 Spherical single return: 96 × 10 B,
  -- pre-loop subtraction 0.000004167 but in-loop increment 0.00001
  | 1, 3 => captureGo pkt 10 0 (fun _ => 1/100000) (fun _ => none)
      false (List.range 96) 18 (t0 - 4167/1000000000)
  -- Horizon/Tele-15 Cartesian dual return: 48 × 28 B, Δ = 0.000002083
  | 1, 4 => captureGo pkt 28 4 (fun _ => 2083/1000000000) (fun _ => none)
      false (List.range 48) 18 (t0 - 2083/1000000000)
  -- Horizon/Tele-15 Spherical dual return: 48 × 16 B,
  -- pre-loop subtraction 0.000002083 but in-loop increment 0.00001
  | 1, 5 => captureGo pkt 16 0 (fun _ => 1/100000) (fun _ => none)
      false (List.range 48) 18 (t0 - 2083/1000000000)
  -- double return firmware, Cartesian: increment on even i, digit 1 + i % 2
  | 2, 0 => captureGo pkt 13 4 (fun i => if i % 2 = 0 then 1/100000 else 0)
      (fun i => some (1 + i % 2)) (decide (deviceCheck = 100))
      (List.range 100) 18 (t0 - 1/100000)
  -- double return firmware, Spherical
  | 2, 1 => captureGo pkt 9 0 (fun i => if i % 2 = 0 then 1/100000 else 0)
      (fun i => some (1 + i % 2)) false (List.range 100) 18 (t0 - 1/100000)
  -- triple return firmware, Cartesian: pre-loop subtraction 0.000016667,
  -- increment 0.000016666 on i % 3 = 0, digit 1 + i % 3
  | 3, 0 => captureGo pkt 13 4
      (fun i => if i % 3 = 0 then 16666/1000000000 else 0)
      (fun i => some (1 + i % 3)) (decide (deviceCheck = 100))
      (List.range 100) 18 (t0 - 16667/1000000000)
  -- triple return firmware, Spherical
  | 3, 1 => captureGo pkt 9 0
      (fun i => if i % 3 = 0 then 16666/1000000000 else 0)
      (fun i => some (1 + i % 3)) false (List.range 100) 18
      (t0 - 16667/1000000000)
  | _, _ => ([], 0, 0)

/-- The ten `(firmwareType, dataType)` pairs `run_realtime_bin` handles. -/
def ValidCombo (fw dt : Nat) : Prop :=
  (fw = 1 ∧ dt ≤ 5) ∨ ((fw = 2 ∨ fw = 3) ∧ dt ≤ 1)

instance (fw dt : Nat) : Decidable (ValidCombo fw dt) := by
  unfold ValidCombo; infer_instance

/-- Record size per `(firmwareType, dataType)`. -/
def ptSize (fw dt : Nat) : Nat :=
  match fw, dt with
  | 1, 0 => 13 | 1, 1 => 9 | 1, 2 => 14 | 1, 3 => 10 | 1, 4 => 28 | 1, 5 => 16
  | 2, 0 => 13 | 2, 1 => 9 | 3, 0 => 13 | 3, 1 => 9
  | _, _ => 0

/-- Points per packet per `(firmwareType, dataType)`. -/
def ptCount (fw dt : Nat) : Nat :=
  match fw, dt with
  | 1, 0 => 100 | 1, 1 => 100 | 1, 2 => 96 | 1, 3 => 96 | 1, 4 => 48
  | 1, 5 => 48 | 2, 0 => 100 | 2, 1 => 100 | 3, 0 => 100 | 3, 1 => 100
  | _, _ => 0

/-- Offset, within a point record, of the 4-byte field whose zeroness decides
the null filter: 4 (the Y coordinate) for Cartesian layouts, 0 (the leading
field) for spherical ones. -/
def ptCheckOff (fw dt : Nat) : Nat :=
  match fw, dt with
  | 1, 0 => 4 | 1, 2 => 4 | 1, 4 => 4 | 2, 0 => 4 | 3, 0 => 4
  | _, _ => 0

/-- Whether the `deviceCheck == 100` bypass applies: only the Cartesian
data-type-0 branches test it. -/
def ptForce (fw dt deviceCheck : Nat) : Bool :=
  decide (dt = 0 ∧ (fw = 1 ∨ fw = 2 ∨ fw = 3) ∧ deviceCheck = 100)

/-- Whether point `i` of the packet is written (not counted null). -/
def keepB (fw dt deviceCheck : Nat) (pkt : List Nat) (i : Nat) : Bool :=
  ptForce fw dt deviceCheck ||
    decide (leU32at pkt (18 + ptSize fw dt * i + ptCheckOff fw dt) ≠ 0)

/-- The ASCII return-number digit written with point `i`, if any. -/
def markerT (fw dt i : Nat) : Option Nat :=
  match fw, dt with
  | 2, 0 => some (1 + i % 2)
  | 2, 1 => some (1 + i % 2)
  | 3, 0 => some (1 + i % 3)
  | 3, 1 => some (1 + i % 3)
  | _, _ => none

/-- Offset of the timestamp written with point `i` from the packet
timestamp, per `(firmwareType, dataType)`. -/
def tsFormula (fw dt i : Nat) : ℚ :=
  match fw, dt with
  | 1, 0 => i * (1/100000)
  | 1, 1 => i * (1/100000)
  | 1, 2 => i * (4167/1000000000)
  | 1, 3 => i * (1/100000) + 5833/1000000000
  | 1, 4 => i * (2083/1000000000)
  | 1, 5 => i * (1/100000) + 7917/1000000000
  | 2, 0 => (i / 2 : Nat) * (1/100000)
  | 2, 1 => (i / 2 : Nat) * (1/100000)
  | 3, 0 => (i / 3 : Nat) * (16666/1000000000) - 1/1000000000
  | 3, 1 => (i / 3 : Nat) * (16666/1000000000) - 1/1000000000
  | _, _ => 0

/-! ## `setStaticIP` and `_checkIP` -/

/-- Python's `str.split(".")` on the character list of a string: dot-separated
parts, empty parts kept (`"".split(".") == [""]`). -/
def splitOnDot : List Char → List (List Char)
  | [] => [[]]
  | c :: rest =>
    let r := splitOnDot rest
    if c = '.' then [] :: r
    else (c :: r.headD []) :: r.tail

/-- Decimal digit value of a character, if it is a digit. -/
def digitVal (c : Char) : Option Nat :=
  if '0' ≤ c ∧ c ≤ '9' then some (c.toNat - 48) else none

/-- Accumulate a decimal digit string. -/
def parseDigitsGo : List Char → Nat → Option Nat
  | [], acc => some acc
  | c :: rest, acc =>
    match digitVal c with
    | none => none
    | some d => parseDigitsGo rest (acc * 10 + d)

/-- Python's `int(s)` on a character list: optional sign followed by at least
one decimal digit, `none` when the parse fails and `int` would raise.
(Python additionally strips surrounding whitespace and accepts underscore
separators; neither occurs in the inputs relevant here.) -/
def parseInt : List Char → Option ℤ
  | [] => none
  | '-' :: rest => if rest = [] then none
      else (parseDigitsGo rest 0).map (fun n => -(n : ℤ))
  | '+' :: rest => if rest = [] then none
      else (parseDigitsGo rest 0).map (fun n => (n : ℤ))
  | cs => (parseDigitsGo cs 0).map (fun n => (n : ℤ))

/-- Loop body of `_checkIP`: each octet string is parsed with `int`, checked
against `0 ≤ · ≤ 254`, and re-rendered in canonical decimal with `.`
separators after the first three parts; any failure clears the accumulator
and stops. -/
def checkIPGo : List (List Char) → Nat → String → String
  | [], _, acc => acc
  | p :: rest, i, acc =>
    match parseInt p with
    | none => ""
    | some n =>
      if 0 ≤ n ∧ n ≤ 254 then
        checkIPGo rest (i + 1)
          (acc ++ toString n ++ (if i < 3 then "." else ""))
      else ""

/-- `_checkIP(inputIP)`: returns the cleaned dotted-quad string, or `""` when
the input is empty, does not have exactly four dot-separated parts, or some
part fails to parse as an integer in `0..254`. -/
def checkIP (inputIP : String) : String :=
  if inputIP = "" then ""
  else
    let IPparts := splitOnDot inputIP.data
    if IPparts.length = 4 then checkIPGo IPparts 0 "" else ""

/-- The constant prefix of the set-static-IP command
(`"AA011400000000a824000801"` decoded): SOF, version, length 20, CMD type,
sequence, precomputed CRC-16, cmd-set 0, cmd-id 8, payload flag 1. -/
def staticIPBaseBytes : List Nat :=
  [0xAA, 0x01, 0x14, 0x00, 0x00, 0x00, 0x00, 0xA8, 0x24, 0x00, 0x08, 0x01]

/-- The driver-side part of `setStaticIP`: the command datagram sent to the
sensor, or `none` when nothing is sent.  The sub-range string selected by
`ipRangeCode` appears only in printed failure messages; it is never used to
validate `ipAddress`. -/
def setStaticIPCmd (isConnected : Bool) (ipRangeCode : Nat)
    (ipAddress : String) : Option (List Nat) :=
  if isConnected then
    let _ipRange : String :=
      if ipRangeCode = 1 then "192.168.1.11 to .80"
      else if ipRangeCode = 2 then "192.168.1.81 to .150"
      else if ipRangeCode = 3 then "192.168.1.151 to .220"
      else ""
    let cleaned := checkIP ipAddress
    if cleaned = "" then none
    else
      let IP_parts := (splitOnDot cleaned.data).map
        (fun p => ((parseInt p).getD 0).toNat)
      let body := staticIPBaseBytes ++ IP_parts
      some (body ++ toLE4 (crc32livox body))
  else none

/-- One octet string parses as an integer in `0..254`. -/
def ValidOctet (p : List Char) : Prop :=
  ∃ n : ℤ, parseInt p = some n ∧ 0 ≤ n ∧ n ≤ 254

/-- Spec-side syntactic IP validity, written from the spec's words: four
dot-separated integer parts, each in `0..254`. -/
def SyntacticIPv4 (s : String) : Prop :=
  s ≠ "" ∧ (splitOnDot s.data).length = 4 ∧
    ∀ p ∈ splitOnDot s.data, ValidOctet p

/-! ## Capture duration (`__init__` and the duration adjustment) -/

/-- The "duration adjustment (trying to get exactly 100,000 points / sec)"
block present in `run` and `run_realtime_csv`. -/
def adjustDuration (fw : Nat) (d : ℚ) : ℚ :=
  if d ≠ 126230400 then
    if fw = 1 then d + 1/1000 * (d / 2)
    else if fw = 2 then d + 5/10000 * (d / 2)
    else if fw = 3 then d + 55/100000 * (d / 2)
    else d
  else d

/-- `__init__`: a requested duration of 0 becomes 126230400 s (≈ 4 years). -/
def initDuration (d : ℚ) : ℚ := if d = 0 then 126230400 else d

/-- The duration bound actually used by the capture phase, per file type
(0 = stored CSV via `run`, 1 = real-time CSV via `run_realtime_csv`,
2 = real-time binary via `run_realtime_bin`).  Only `run` and
`run_realtime_csv` contain the adjustment block; `run_realtime_bin` uses the
requested duration unchanged. -/
def captureDuration (fileType fw : Nat) (d : ℚ) : ℚ :=
  let d0 := initDuration d
  if fileType = 1 then adjustDuration fw d0
  else if fileType = 2 then d0
  else adjustDuration fw d0

/-- The per-firmware compensation constant `k` of the spec. -/
def kFactor (fw : Nat) : ℚ :=
  if fw = 1 then 1/1000 else if fw = 2 then 5/10000
  else if fw = 3 then 55/100000 else 0

/-! ## `_updateUTC` -/

/-- The silent clamping `_updateUTC` applies before building the payload:
`(yeari, monthi, dayi, houri, seci)`. -/
def clampUTC (year month day hour microsec : ℤ) : ℤ × ℤ × ℤ × ℤ × ℤ :=
  let yeari := year - 2000
  let yeari := if yeari < 0 ∨ yeari > 255 then 0 else yeari
  let monthi := if month < 1 ∨ month > 12 then 1 else month
  let dayi := if day < 1 ∨ day > 31 then 1 else day
  let houri := if hour < 0 ∨ hour > 23 then 0 else hour
  let seci := if microsec < 0 ∨ microsec > 3600000000 then 0 else microsec
  (yeari, monthi, dayi, houri, seci)

/-- The 8-byte command payload `_updateUTC` builds (`<B` year, month, day,
hour, then `<I` microseconds); all five clamped values fit their fields. -/
def updateUTCPayload (year month day hour microsec : ℤ) : List Nat :=
  let c := clampUTC year month day hour microsec
  [c.1.toNat, c.2.1.toNat, c.2.2.1.toNat, c.2.2.2.1.toNat] ++
    toLE4 c.2.2.2.2.toNat

/-! ## `_convertBin2LAS` — accept/reject decision -/

/-- The 11-byte ASCII magic `"OPENPYLIVOX"`. -/
def openpylivoxMagic : List Nat :=
  [79, 80, 69, 78, 80, 89, 76, 73, 86, 79, 88]

/-- Outcome of `_convertBin2LAS` on a container file: whether a `.las` output
file is created and whether the input binary is deleted. -/
structure LASConvertResult where
  lasCreated : Bool
  binDeleted : Bool
deriving DecidableEq

/-- The accept/reject logic of `_convertBin2LAS`: magic check, then
`firmwareType ∈ 1..3`, then `dataType ∈ {0, 2, 4}`; the input file is removed
(when `deleteBin`) only on the success path, after the `.las` file is
written. -/
def convertBin2LASDecision (fileBytes : List Nat) (deleteBin : Bool) :
    LASConvertResult :=
  -- `firmwareType` is the `<h` at offset 11, `dataType` the `<h` at offset 13
  if slice fileBytes 0 11 = openpylivoxMagic then
    if 1 ≤ leI16 (slice fileBytes 11 2) ∧ leI16 (slice fileBytes 11 2) ≤ 3 then
      if leI16 (slice fileBytes 13 2) = 0 ∨ leI16 (slice fileBytes 13 2) = 2 ∨
          leI16 (slice fileBytes 13 2) = 4 then
        ⟨true, deleteBin⟩
      else ⟨false, false⟩
    else ⟨false, false⟩
  else ⟨false, false⟩

/-! ## `_dataCaptureThread.getTimestamp` -/

/-- Exact rounding to 6 decimal places (Python's `round(·, 6)`; the source
applies it to a `float`, whose binary rounding is abstracted away here — no
claim settled below depends on it). -/
def round6 (q : ℚ) : ℚ := (round (q * 1000000) : ℤ) / 1000000

/-- `getTimestamp(data_pc, timestamp_type)`.  Timestamp-types 0, 1 and 4 read
a `<Q` nanosecond count; type 3 reads the UTC layout (year, month, day, hour
bytes and a `<L` microseconds-into-hour count, hours folded in after
rounding).  For every other type the source assigns nothing and the final
`return timestamp_sec` raises `UnboundLocalError`, modelled as `none`. -/
def getTimestamp (data_pc : List Nat) (timestamp_type : Nat) : Option ℚ :=
  if timestamp_type = 0 ∨ timestamp_type = 1 ∨ timestamp_type = 4 then
    some (round6 ((leBytes (slice data_pc 0 8) : ℚ) / 1000000000))
  else if timestamp_type = 3 then
    some (round6 ((leBytes (slice data_pc 4 4) : ℚ) / 1000000) +
      (data_pc.getD 3 0 : ℚ) * 3600)
  else none

/-! ## Spec-side predicates and concrete fixtures -/

/-- The five checks `_parseResp` performs before reading the frame-type and
command-set bytes: CRC-16, CRC-32, SOF, version, and length bound. -/
def PrefixChecks (bs : List Nat) : Prop :=
  stored16 bs = crc16livox (slice bs 0 7) ∧
  stored32 bs = crc32livox (slice bs 0 (bs.length - 4)) ∧
  bs.getD 0 0 = 170 ∧ bs.getD 1 0 = 1 ∧ lengthField bs ≤ 1400

/-- All seven well-formedness conditions of the claim: the five prefix checks
plus frame-type ∈ {0, 1, 2} and command-set ∈ {0, 1, 2}. -/
def FrameChecks (bs : List Nat) : Prop :=
  PrefixChecks bs ∧ (bs.getD 4 0 = 0 ∨ bs.getD 4 0 = 1 ∨ bs.getD 4 0 = 2) ∧
    (bs.getD 9 0 = 0 ∨ bs.getD 9 0 = 1 ∨ bs.getD 9 0 = 2)

/-- A data-type-0 point whose X and Z coordinates are 1 mm but whose Y
coordinate is zero (intensity 7). -/
def cexPointDT0 : List Nat := [1, 0, 0, 0, 0, 0, 0, 0, 1, 0, 0, 0, 7]

/-- A full data-type-0 packet (18-byte header + 100 × 13 point bytes) whose
points all have X = 1, Y = 0, Z = 1. -/
def cexPacketDT0 : List Nat :=
  List.replicate 18 0 ++ (List.replicate 100 cexPointDT0).flatten

/-- A full data-type-4 packet (18 + 48 × 28 bytes), every byte 1. -/
def cexPacketDT4 : List Nat := List.replicate (18 + 48 * 28) 1

/-- A full data-type-5 packet (18 + 48 × 16 bytes), every byte 1. -/
def cexPacketDT5 : List Nat := List.replicate (18 + 48 * 16) 1

/-- A full data-type-0 packet, every byte 1 (all check fields nonzero). -/
def fullPacketOnes : List Nat := List.replicate (18 + 100 * 13) 1

/-! ## General lemmas about the capture loop -/

/-- Partial sums of the per-iteration timestamp increments. -/
def psum (inc : Nat → ℚ) : Nat → ℚ
  | 0 => 0
  | n + 1 => psum inc n + inc n

theorem psum_const (c : ℚ) : ∀ n, psum (fun _ => c) n = n * c
  | 0 => by simp [psum]
  | n + 1 => by rw [psum, psum_const c n]; push_cast; ring

theorem psum_mod2 (c : ℚ) :
    ∀ n, psum (fun i => if i % 2 = 0 then c else 0) n = ((n + 1) / 2 : Nat) * c
  | 0 => by simp [psum]
  | n + 1 => by
    rw [psum, psum_mod2 c n]
    by_cases h : n % 2 = 0
    · have h2 : (n + 1 + 1) / 2 = (n + 1) / 2 + 1 := by omega
      rw [if_pos h, h2]; push_cast; ring
    · have h2 : (n + 1 + 1) / 2 = (n + 1) / 2 := by omega
      rw [if_neg h, h2]; ring

theorem psum_mod3 (c : ℚ) :
    ∀ n, psum (fun i => if i % 3 = 0 then c else 0) n = ((n + 2) / 3 : Nat) * c
  | 0 => by simp [psum]
  | n + 1 => by
    rw [psum, psum_mod3 c n]
    by_cases h : n % 3 = 0
    · have h2 : (n + 1 + 2) / 3 = (n + 2) / 3 + 1 := by omega
      rw [if_pos h, h2]; push_cast; ring
    · have h2 : (n + 1 + 2) / 3 = (n + 2) / 3 := by omega
      rw [if_neg h, h2]; ring

/-- Full characterization of the capture loop over indices `i0, …, i0+k-1`:
written records are exactly the points whose check field is nonzero (or all of
them under `forceWrite`), each carrying the raw slice, the accumulated
timestamp, and the marker; the good/null counters count the kept and dropped
points. -/
theorem captureGo_eq (pkt : List Nat) (size checkOff : Nat) (inc : Nat → ℚ)
    (marker : Nat → Option Nat) (fwB : Bool) :
    ∀ (k i0 : Nat) (ts : ℚ),
      captureGo pkt size checkOff inc marker fwB (List.range' i0 k)
          (18 + size * i0) ts =
        (((List.range' i0 k).filter fun i =>
            fwB || decide (leU32at pkt (18 + size * i + checkOff) ≠ 0)).map
          (fun i =>
            ⟨slice pkt (18 + size * i) size,
              ts + psum inc (i + 1) - psum inc i0, marker i⟩),
          (List.range' i0 k).countP (fun i =>
            fwB || decide (leU32at pkt (18 + size * i + checkOff) ≠ 0)),
          (List.range' i0 k).countP (fun i =>
            !(fwB || decide (leU32at pkt (18 + size * i + checkOff) ≠ 0))))
  | 0, i0, ts => by simp [List.range', captureGo]
  | k + 1, i0, ts => by
    rw [List.range'_succ, captureGo]
    have hpos : 18 + size * i0 + size = 18 + size * (i0 + 1) := by ring
    rw [hpos, captureGo_eq pkt size checkOff inc marker fwB k (i0 + 1)
      (ts + inc i0)]
    have hmap :
        (List.map (fun i =>
            (⟨slice pkt (18 + size * i) size,
              ts + inc i0 + psum inc (i + 1) - psum inc (i0 + 1),
              marker i⟩ : BinRecord)))
          = List.map (fun i =>
            (⟨slice pkt (18 + size * i) size,
              ts + psum inc (i + 1) - psum inc i0, marker i⟩ : BinRecord)) :=
      funext fun l => List.map_congr_left fun i _ => by
        congr 1
        rw [show psum inc (i0 + 1) = psum inc i0 + inc i0 from rfl]
        ring
    by_cases h : fwB = true ∨ leU32at pkt (18 + size * i0 + checkOff) ≠ 0
    · have hb : (fwB || decide (leU32at pkt (18 + size * i0 + checkOff) ≠ 0))
          = true := by
        rcases h with h | h
        · simp [h]
        · simp [h]
      simp only [if_pos h, List.filter_cons, hb, if_pos, List.map_cons,
        List.countP_cons, hb, Bool.not_true, cond_true]
      rw [hmap]
      refine Prod.ext ?_ (Prod.ext ?_ ?_) <;> simp [psum]
      ring
    · have hb : (fwB || decide (leU32at pkt (18 + size * i0 + checkOff) ≠ 0))
          = false := by
        push_neg at h
        simp [h.1, h.2]
      simp only [if_neg h, List.filter_cons, hb, List.countP_cons,
        Bool.not_false, cond_false]
      rw [hmap]
      refine Prod.ext ?_ (Prod.ext ?_ ?_) <;> simp

/-- `captureGo_eq` specialised to a full packet loop (`range n`, start
position 18, start timestamp `t0 - Δs`), with the accumulated timestamps
rewritten to a closed form `t0 + tsF i`. -/
theorem capture_case (pkt : List Nat) (size checkOff n : Nat) (inc : Nat → ℚ)
    (marker : Nat → Option Nat) (fwB : Bool) (t0 Δs : ℚ) (tsF : Nat → ℚ)
    (hts : ∀ i, t0 - Δs + psum inc (i + 1) = t0 + tsF i) :
    captureGo pkt size checkOff inc marker fwB (List.range n) 18 (t0 - Δs) =
      (((List.range n).filter fun i =>
          fwB || decide (leU32at pkt (18 + size * i + checkOff) ≠ 0)).map
        (fun i =>
          ⟨slice pkt (18 + size * i) size, t0 + tsF i, marker i⟩),
        (List.range n).countP (fun i =>
          fwB || decide (leU32at pkt (18 + size * i + checkOff) ≠ 0)),
        (List.range n).countP (fun i =>
          !(fwB || decide (leU32at pkt (18 + size * i + checkOff) ≠ 0)))) := by
  rw [List.range_eq_range']
  conv_lhs => rw [show (18 : ℕ) = 18 + size * 0 from by ring]
  rw [captureGo_eq]
  refine Prod.ext ?_ (Prod.ext rfl rfl)
  refine List.map_congr_left fun i _ => ?_
  congr 1
  rw [show psum inc 0 = 0 from rfl, sub_zero, ← hts i]

/-- Full characterization of `run_realtime_bin`'s per-packet processing for
each of the ten handled `(firmwareType, dataType)` pairs: written records are
exactly the points whose check field is nonzero (unless the `deviceCheck ==
100` bypass applies, Cartesian data-type 0 only), each record carries the
point's raw byte slice, the timestamp `t0 + tsFormula`, and the return-number
digit `markerT`; the counters count kept and nulled points. -/
theorem processPacketBin_spec (fw dt dc : Nat) (t0 : ℚ) (pkt : List Nat)
    (h : ValidCombo fw dt) :
    processPacketBin fw dt dc t0 pkt =
      (((List.range (ptCount fw dt)).filter (keepB fw dt dc pkt)).map
        (fun i =>
          ⟨slice pkt (18 + ptSize fw dt * i) (ptSize fw dt),
            t0 + tsFormula fw dt i, markerT fw dt i⟩),
        (List.range (ptCount fw dt)).countP (keepB fw dt dc pkt),
        (List.range (ptCount fw dt)).countP
          (fun i => !(keepB fw dt dc pkt i))) := by
  rcases h with ⟨rfl, hdt⟩ | ⟨hfw, hdt⟩
  · interval_cases dt
    · -- fw 1, dt 0
      have hk : keepB 1 0 dc pkt = fun i =>
          decide (dc = 100) || decide (leU32at pkt (18 + 13 * i + 4) ≠ 0) := by
        funext i
        by_cases hq : dc = 100 <;> simp [keepB, ptForce, ptSize, ptCheckOff, hq]
      simp only [processPacketBin, ptCount, ptSize, ptCheckOff, markerT,
        tsFormula, hk]
      exact capture_case pkt 13 4 100 _ _ _ t0 (1/100000) _ (fun i => by
        rw [psum_const]; push_cast; ring)
    · -- fw 1, dt 1
      have hk : keepB 1 1 dc pkt = fun i =>
          false || decide (leU32at pkt (18 + 9 * i + 0) ≠ 0) := by
        funext i; simp [keepB, ptForce, ptSize, ptCheckOff]
      simp only [processPacketBin, ptCount, ptSize, ptCheckOff, markerT,
        tsFormula, hk]
      exact capture_case pkt 9 0 100 _ _ _ t0 (1/100000) _ (fun i => by
        rw [psum_const]; push_cast; ring)
    · -- fw 1, dt 2
      have hk : keepB 1 2 dc pkt = fun i =>
          false || decide (leU32at pkt (18 + 14 * i + 4) ≠ 0) := by
        funext i; simp [keepB, ptForce, ptSize, ptCheckOff]
      simp only [processPacketBin, ptCount, ptSize, ptCheckOff, markerT,
        tsFormula, hk]
      exact capture_case pkt 14 4 96 _ _ _ t0 (4167/1000000000) _ (fun i => by
        rw [psum_const]; push_cast; ring)
    · -- fw 1, dt 3
      have hk : keepB 1 3 dc pkt = fun i =>
          false || decide (leU32at pkt (18 + 10 * i + 0) ≠ 0) := by
        funext i; simp [keepB, ptForce, ptSize, ptCheckOff]
      simp only [processPacketBin, ptCount, ptSize, ptCheckOff, markerT,
        tsFormula, hk]
      exact capture_case pkt 10 0 96 _ _ _ t0 (4167/1000000000) _ (fun i => by
        rw [psum_const]; push_cast; ring)
    · -- fw 1, dt 4
      have hk : keepB 1 4 dc pkt = fun i =>
          false || decide (leU32at pkt (18 + 28 * i + 4) ≠ 0) := by
        funext i; simp [keepB, ptForce, ptSize, ptCheckOff]
      simp only [processPacketBin, ptCount, ptSize, ptCheckOff, markerT,
        tsFormula, hk]
      exact capture_case pkt 28 4 48 _ _ _ t0 (2083/1000000000) _ (fun i => by
        rw [psum_const]; push_cast; ring)
    · -- fw 1, dt 5
      have hk : keepB 1 5 dc pkt = fun i =>
          false || decide (leU32at pkt (18 + 16 * i + 0) ≠ 0) := by
        funext i; simp [keepB, ptForce, ptSize, ptCheckOff]
      simp only [processPacketBin, ptCount, ptSize, ptCheckOff, markerT,
        tsFormula, hk]
      exact capture_case pkt 16 0 48 _ _ _ t0 (2083/1000000000) _ (fun i => by
        rw [psum_const]; push_cast; ring)
  · rcases hfw with rfl | rfl <;> interval_cases dt
    · -- fw 2, dt 0
      have hk : keepB 2 0 dc pkt = fun i =>
          decide (dc = 100) || decide (leU32at pkt (18 + 13 * i + 4) ≠ 0) := by
        funext i
        by_cases hq : dc = 100 <;> simp [keepB, ptForce, ptSize, ptCheckOff, hq]
      simp only [processPacketBin, ptCount, ptSize, ptCheckOff, markerT,
        tsFormula, hk]
      exact capture_case pkt 13 4 100 _ _ _ t0 (1/100000) _ (fun i => by
        rw [psum_mod2]
        rw [show (i + 1 + 1) / 2 = i / 2 + 1 from by omega]
        push_cast; ring)
    · -- fw 2, dt 1
      have hk : keepB 2 1 dc pkt = fun i =>
          false || decide (leU32at pkt (18 + 9 * i + 0) ≠ 0) := by
        funext i; simp [keepB, ptForce, ptSize, ptCheckOff]
      simp only [processPacketBin, ptCount, ptSize, ptCheckOff, markerT,
        tsFormula, hk]
      exact capture_case pkt 9 0 100 _ _ _ t0 (1/100000) _ (fun i => by
        rw [psum_mod2]
        rw [show (i + 1 + 1) / 2 = i / 2 + 1 from by omega]
        push_cast; ring)
    · -- fw 3, dt 0
      have hk : keepB 3 0 dc pkt = fun i =>
          decide (dc = 100) || decide (leU32at pkt (18 + 13 * i + 4) ≠ 0) := by
        funext i
        by_cases hq : dc = 100 <;> simp [keepB, ptForce, ptSize, ptCheckOff, hq]
      simp only [processPacketBin, ptCount, ptSize, ptCheckOff, markerT,
        tsFormula, hk]
      exact capture_case pkt 13 4 100 _ _ _ t0 (16667/1000000000) _ (fun i => by
        rw [psum_mod3]
        rw [show (i + 1 + 2) / 3 = i / 3 + 1 from by omega]
        push_cast; ring)
    · -- fw 3, dt 1
      have hk : keepB 3 1 dc pkt = fun i =>
          false || decide (leU32at pkt (18 + 9 * i + 0) ≠ 0) := by
        funext i; simp [keepB, ptForce, ptSize, ptCheckOff]
      simp only [processPacketBin, ptCount, ptSize, ptCheckOff, markerT,
        tsFormula, hk]
      exact capture_case pkt 9 0 100 _ _ _ t0 (16667/1000000000) _ (fun i => by
        rw [psum_mod3]
        rw [show (i + 1 + 2) / 3 = i / 3 + 1 from by omega]
        push_cast; ring)

/-! ## Validation of the codec against the source's precomputed frames -/

example : crc16livox (slice cmdHeartbeat 0 7) = 0xD704 := by decide

example : crc32livox (slice cmdHeartbeat 0 11) = 0x0C8DBA38 := by decide

example : (parseResp cmdHeartbeat).goodData = true := by decide

example : (parseResp hbAckWork4).goodData = true := by decide

example : (parseResp msgAbnormal).goodData = true := by decide

/-! ## Claims -/

/-- C10: `getTimestamp` produces a value exactly when the timestamp-type byte
is one of {0, 1, 3, 4}; for every other value the source assigns nothing and
the final `return timestamp_sec` raises (`none` here), so total packet
decoding needs `timestamp_type ∈ {0, 1, 3, 4}` as a precondition. -/
theorem claim_C10_getTimestamp_domain (data : List Nat) (tt : Nat) :
    (getTimestamp data tt).isSome = true ↔
      (tt = 0 ∨ tt = 1 ∨ tt = 3 ∨ tt = 4) := by
  unfold getTimestamp
  split_ifs with h1 h2 <;> simp <;> tauto

/-- C9: the binary-to-LAS transcoder rejects every container whose data-type
header field is not Cartesian (0, 2 or 4): no `.las` file is created and the
input binary file is not deleted. -/
theorem claim_C9_las_rejects_noncartesian (fileBytes : List Nat)
    (deleteBin : Bool)
    (h : ¬(leI16 (slice fileBytes 13 2) = 0 ∨ leI16 (slice fileBytes 13 2) = 2
        ∨ leI16 (slice fileBytes 13 2) = 4)) :
    convertBin2LASDecision fileBytes deleteBin = ⟨false, false⟩ := by
  simp only [convertBin2LASDecision]
  split_ifs with hm hf
  all_goals rfl

/-- Witness for C9 at a concrete container: magic, firmware type 1,
data type 1 (spherical), `deleteBin = true`. -/
theorem claim_C9_witness :
    convertBin2LASDecision (openpylivoxMagic ++ [1, 0, 1, 0]) true
      = ⟨false, false⟩ :=
  claim_C9_las_rejects_noncartesian _ _ (by decide)

/-- C8: `_updateUTC` silently clamps every out-of-range argument before
building the payload — year byte `year − 2000` when that lies in 0–255 else
0, month kept in 1–12 else 1, day kept in 1–31 else 1, hour kept in 0–23 else
0, microseconds kept in 0–3600000000 else 0 — and the payload is always
built (no error path exists for clamped inputs). -/
theorem claim_C8_updateUTC_clamps (year month day hour microsec : ℤ) :
    updateUTCPayload year month day hour microsec =
      [if 0 ≤ year - 2000 ∧ year - 2000 ≤ 255 then (year - 2000).toNat else 0,
       if 1 ≤ month ∧ month ≤ 12 then month.toNat else 1,
       if 1 ≤ day ∧ day ≤ 31 then day.toNat else 1,
       if 0 ≤ hour ∧ hour ≤ 23 then hour.toNat else 0] ++
      toLE4 (if 0 ≤ microsec ∧ microsec ≤ 3600000000 then microsec.toNat
        else 0) := by
  have h1 : (if year - 2000 < 0 ∨ year - 2000 > 255 then 0
        else year - 2000).toNat
      = if 0 ≤ year - 2000 ∧ year - 2000 ≤ 255 then (year - 2000).toNat
        else 0 := by
    split_ifs <;> omega
  have h2 : (if month < 1 ∨ month > 12 then 1 else month).toNat
      = if 1 ≤ month ∧ month ≤ 12 then month.toNat else 1 := by
    split_ifs <;> omega
  have h3 : (if day < 1 ∨ day > 31 then 1 else day).toNat
      = if 1 ≤ day ∧ day ≤ 31 then day.toNat else 1 := by
    split_ifs <;> omega
  have h4 : (if hour < 0 ∨ hour > 23 then 0 else hour).toNat
      = if 0 ≤ hour ∧ hour ≤ 23 then hour.toNat else 0 := by
    split_ifs <;> omega
  have h5 : (if microsec < 0 ∨ microsec > 3600000000 then 0
        else microsec).toNat
      = if 0 ≤ microsec ∧ microsec ≤ 3600000000 then microsec.toNat else 0 := by
    split_ifs <;> omega
  simp only [updateUTCPayload, clampUTC]
  rw [h1, h2, h3, h4, h5]

/-- C6: a well-formed heartbeat ACK (General, id 3, `ret_code` 0) whose
`work_state` byte is 4 makes the heartbeat loop call `sys.exit(0)`, and a
well-formed abnormal-status MSG (General, id 7) makes it call `sys.exit(1)`. -/
theorem claim_C6_heartbeat_fatal (bs : List Nat) :
    ((parseResp bs).goodData = true →
      (parseResp bs).cmdMessage = "ACK (response)" →
      (parseResp bs).dataMessage = "General" →
      (parseResp bs).dataID = "3" →
      (parseResp bs).data.getD 0 0 = 0 →
      (parseResp bs).data.getD 1 0 = 4 →
      heartbeatStep bs = HBAction.exit 0) ∧
    ((parseResp bs).goodData = true →
      (parseResp bs).cmdMessage = "MSG (message)" →
      (parseResp bs).dataMessage = "General" →
      (parseResp bs).dataID = "7" →
      heartbeatStep bs = HBAction.exit 1) := by
  constructor
  · intro _ h1 h2 h3 h4 h5
    simp only [List.getD_eq_getElem?_getD] at h4 h5
    simp [heartbeatStep, heartbeatHandle, h1, h2, h3, h4, h5]
  · intro _ h1 h2 h3
    simp [heartbeatStep, heartbeatHandle, h1, h2, h3]

/-- Witness for C6 at the two concrete frames. -/
theorem claim_C6_witness :
    heartbeatStep hbAckWork4 = HBAction.exit 0 ∧
    heartbeatStep msgAbnormal = HBAction.exit 1 :=
  ⟨(claim_C6_heartbeat_fatal hbAckWork4).1 (by decide) (by decide) (by decide)
      (by decide) (by decide) (by decide),
    (claim_C6_heartbeat_fatal msgAbnormal).2 (by decide) (by decide)
      (by decide) (by decide)⟩

/-- C3, counterexample: in real-time binary mode (`fileType` 2) the requested
duration is used unchanged — a 10 s request with single-return firmware runs
for 10 s, not the claimed 10 · (1 + 0.001/2) = 10.005 s. -/
theorem claim_C3_counterexample :
    captureDuration 2 1 10 = 10 ∧
    captureDuration 2 1 10 ≠ 10 * (1 + (1/1000) / 2) := by
  refine ⟨?_, ?_⟩ <;> norm_num [captureDuration, initDuration]

/-- C3, amended: the duration compensation `d · (1 + k/2)` is applied in the
stored-CSV (`run`) and real-time-CSV (`run_realtime_csv`) capture modes, but
`run_realtime_bin` contains no such block and uses the requested duration
unchanged. -/
theorem claim_C3_amended (fw : Nat) (hfw : fw = 1 ∨ fw = 2 ∨ fw = 3) (d : ℚ)
    (h0 : 0 < d) (h1 : d < 126230400) :
    captureDuration 0 fw d = d * (1 + kFactor fw / 2) ∧
    captureDuration 1 fw d = d * (1 + kFactor fw / 2) ∧
    captureDuration 2 fw d = d := by
  have hne : d ≠ 0 := ne_of_gt h0
  have hne2 : d ≠ 126230400 := ne_of_lt h1
  rcases hfw with rfl | rfl | rfl <;>
    refine ⟨?_, ?_, ?_⟩ <;>
    simp [captureDuration, initDuration, adjustDuration, kFactor, hne, hne2] <;>
    ring

/-- If any part of the list fails the octet check, `_checkIP`'s loop returns
the empty string. -/
theorem checkIPGo_invalid (p : List Char) (hv : ¬ValidOctet p) :
    ∀ (ps : List (List Char)) (i : Nat) (acc : String), p ∈ ps →
      checkIPGo ps i acc = ""
  | [], _, _, hp => absurd hp (List.not_mem_nil p)
  | q :: rest, i, acc, hp => by
    cases hq : parseInt q with
    | none => simp [checkIPGo, hq]
    | some n =>
      by_cases hr : 0 ≤ n ∧ n ≤ 254
      · rcases List.mem_cons.1 hp with rfl | hmem
        · exact absurd ⟨n, hq, hr.1, hr.2⟩ hv
        · simp only [checkIPGo, hq, if_pos hr]
          exact checkIPGo_invalid p hv rest (i + 1) _ hmem
      · simp [checkIPGo, hq, hr]

/-- With four valid octets, `_checkIP`'s loop produces a nonempty string
(it contains three separator dots). -/
theorem checkIPGo_four_ne (p0 p1 p2 p3 : List Char) (n0 n1 n2 n3 : ℤ)
    (h0 : parseInt p0 = some n0) (r0 : 0 ≤ n0 ∧ n0 ≤ 254)
    (h1 : parseInt p1 = some n1) (r1 : 0 ≤ n1 ∧ n1 ≤ 254)
    (h2 : parseInt p2 = some n2) (r2 : 0 ≤ n2 ∧ n2 ≤ 254)
    (h3 : parseInt p3 = some n3) (r3 : 0 ≤ n3 ∧ n3 ≤ 254) :
    checkIPGo [p0, p1, p2, p3] 0 "" ≠ "" := by
  have e : checkIPGo [p0, p1, p2, p3] 0 "" =
      "" ++ toString n0 ++ "." ++ toString n1 ++ "." ++ toString n2 ++ "."
        ++ toString n3 ++ "" := by
    simp [checkIPGo, h0, h1, h2, h3, r0.1, r0.2, r1.1, r1.2, r2.1, r2.2,
      r3.1, r3.2]
  rw [e]
  intro hEq
  have hlen := congrArg String.length hEq
  have hdot : ("." : String).length = 1 := rfl
  simp [String.length_append, hdot] at hlen

/-- A list of length four is a four-element literal. -/
theorem length_four {α : Type} {l : List α} (h : l.length = 4) :
    ∃ a b c d : α, l = [a, b, c, d] := by
  rcases l with _ | ⟨a, _ | ⟨b, _ | ⟨c, _ | ⟨d, _ | ⟨e, t⟩⟩⟩⟩⟩
  · simp only [List.length_nil] at h; omega
  · simp only [List.length_cons, List.length_nil] at h; omega
  · simp only [List.length_cons, List.length_nil] at h; omega
  · simp only [List.length_cons, List.length_nil] at h; omega
  · exact ⟨a, b, c, d, rfl⟩
  · simp only [List.length_cons] at h
    omega

/-- `_checkIP` accepts (returns a nonempty cleaned string) exactly the
syntactically valid dotted quads. -/
theorem checkIP_ne_iff (s : String) : checkIP s ≠ "" ↔ SyntacticIPv4 s := by
  unfold checkIP SyntacticIPv4
  by_cases h0 : s = ""
  · simp [h0]
  · rw [if_neg h0]
    by_cases h4 : (splitOnDot s.data).length = 4
    · rw [if_pos h4]
      constructor
      · intro hne
        refine ⟨h0, h4, fun p hp => ?_⟩
        by_contra hv
        exact hne (checkIPGo_invalid p hv _ 0 "" hp)
      · rintro ⟨-, -, hall⟩
        obtain ⟨a, b, c, d, hps⟩ := length_four h4
        rw [hps]
        obtain ⟨na, hna, hra⟩ := hall a (by rw [hps]; simp)
        obtain ⟨nb, hnb, hrb⟩ := hall b (by rw [hps]; simp)
        obtain ⟨nc, hnc, hrc⟩ := hall c (by rw [hps]; simp)
        obtain ⟨nd, hnd, hrd⟩ := hall d (by rw [hps]; simp)
        exact checkIPGo_four_ne a b c d na nb nc nd hna hra hnb hrb hnc hrc
          hnd hrd
    · rw [if_neg h4]
      simp [h0, h4]

/-- C1, amended: `setStaticIP` performs only the syntactic `_checkIP`
validation — four dot-separated integers, each in 0–254.  The sub-range
selected by `ip_range_code` never gates the operation: for any range code, a
syntactically valid address (inside the sub-range or not) is encoded into the
set-static-IP command and transmitted to the sensor, and only a syntactically
invalid address is rejected driver-side with no network traffic. -/
theorem claim_C1_amended (rc : Nat) (ip : String) :
    (setStaticIPCmd true rc ip).isSome = true ↔ SyntacticIPv4 ip := by
  rw [← checkIP_ne_iff]
  unfold setStaticIPCmd
  by_cases hc : checkIP ip = "" <;> simp [hc]

/-- C1, counterexample: `"192.168.1.9"` passes `_checkIP` although 9 is
outside range-code 1's sub-range `.11–.80`, and the set-static-IP command is
built and sent to the sensor (the claim says the driver rejects it and sends
no traffic). -/
theorem claim_C1_counterexample :
    checkIP "192.168.1.9" = "192.168.1.9" ∧
    ¬((11 : ℕ) ≤ 9 ∧ (9 : ℕ) ≤ 80) ∧
    setStaticIPCmd true 1 "192.168.1.9" =
      some [170, 1, 20, 0, 0, 0, 0, 168, 36, 0, 8, 1, 192, 168, 1, 9,
        227, 186, 92, 172] :=
  ⟨by decide, by decide, by decide⟩

/-- A slice of a slice is a slice, when it stays inside the outer one. -/
theorem slice_slice (bs : List Nat) (pos size off len : Nat)
    (h : off + len ≤ size) :
    slice (slice bs pos size) off len = slice bs (pos + off) len := by
  unfold slice
  rw [List.drop_take, List.take_take, List.drop_drop,
    Nat.min_eq_left (by omega)]

/-- The null-check field lies inside the point record for every handled
`(firmwareType, dataType)` pair. -/
theorem checkOff_le (fw dt : Nat) (h : ValidCombo fw dt) :
    ptCheckOff fw dt + 4 ≤ ptSize fw dt := by
  rcases h with ⟨rfl, hdt⟩ | ⟨hfw, hdt⟩
  · interval_cases dt <;> decide
  · rcases hfw with rfl | rfl <;> interval_cases dt <;> decide

/-- C2, amended: for a non-Mid-100 device, `run_realtime_bin` counts a point
as null and omits it iff the single 4-byte field it inspects is zero — the Y
coordinate (offset 4) for Cartesian layouts, the leading field (offset 0,
which the source reads as the distance) for spherical ones; written records
are exactly the points with that field nonzero, so in particular no written
point has all coordinate fields zero. -/
theorem claim_C2_amended (fw dt dc : Nat) (t0 : ℚ) (pkt : List Nat)
    (h : ValidCombo fw dt) (hdc : dc ≠ 100) :
    (processPacketBin fw dt dc t0 pkt).1 =
      ((List.range (ptCount fw dt)).filter (fun i =>
          decide (leU32at pkt (18 + ptSize fw dt * i + ptCheckOff fw dt)
            ≠ 0))).map
        (fun i => ⟨slice pkt (18 + ptSize fw dt * i) (ptSize fw dt),
          t0 + tsFormula fw dt i, markerT fw dt i⟩) ∧
    (processPacketBin fw dt dc t0 pkt).2.2 =
      (List.range (ptCount fw dt)).countP (fun i =>
        decide (leU32at pkt (18 + ptSize fw dt * i + ptCheckOff fw dt) = 0)) ∧
    ∀ r ∈ (processPacketBin fw dt dc t0 pkt).1,
      leBytes (slice r.ptBytes (ptCheckOff fw dt) 4) ≠ 0 := by
  have hforce : ptForce fw dt dc = false := by simp [ptForce, hdc]
  have hkeep : keepB fw dt dc pkt = fun i =>
      decide (leU32at pkt (18 + ptSize fw dt * i + ptCheckOff fw dt) ≠ 0) := by
    funext i; simp [keepB, hforce]
  have hs := processPacketBin_spec fw dt dc t0 pkt h
  rw [hkeep] at hs
  refine ⟨by rw [hs], ?_, ?_⟩
  · rw [hs]
    have hnot : (fun i =>
        !(decide (leU32at pkt (18 + ptSize fw dt * i + ptCheckOff fw dt) ≠ 0)))
        = fun i =>
          decide (leU32at pkt (18 + ptSize fw dt * i + ptCheckOff fw dt)
            = 0) := by
      funext i
      by_cases hz : leU32at pkt (18 + ptSize fw dt * i + ptCheckOff fw dt) = 0
        <;> simp [hz]
    rw [hnot]
  · intro r hr
    rw [hs] at hr
    obtain ⟨i, hi, rfl⟩ := List.mem_map.1 hr
    have hne : leU32at pkt (18 + ptSize fw dt * i + ptCheckOff fw dt) ≠ 0 :=
      of_decide_eq_true (List.mem_filter.1 hi).2
    show leBytes (slice (slice pkt (18 + ptSize fw dt * i) (ptSize fw dt))
      (ptCheckOff fw dt) 4) ≠ 0
    rw [slice_slice _ _ _ _ _ (checkOff_le fw dt h)]
    exact hne

/-- C2, counterexample: a data-type-0 packet whose points all have X = 1 mm,
Y = 0, Z = 1 mm is entirely dropped (100 nulls, nothing written) although no
point has all of its coordinate fields zero — the loop inspects only the Y
field. -/
theorem claim_C2_counterexample :
    (processPacketBin 1 0 0 0 cexPacketDT0).1 = [] ∧
    (processPacketBin 1 0 0 0 cexPacketDT0).2.2 = 100 ∧
    leU32at cexPacketDT0 18 = 1 := by
  have hs := processPacketBin_spec 1 0 0 0 cexPacketDT0 (by decide)
  have hk : (List.range (ptCount 1 0)).filter (keepB 1 0 0 cexPacketDT0)
      = [] := by decide
  have hc : (List.range (ptCount 1 0)).countP
      (fun i => !(keepB 1 0 0 cexPacketDT0 i)) = 100 := by decide
  refine ⟨?_, ?_, by decide⟩
  · simp only [hs, hk, List.map_nil]
  · simp only [hs, hc]

/-- Witness for C2 (amended) at firmware 1, data-type 0, `deviceCheck` 0, on
an all-ones packet. -/
theorem claim_C2_amended_witness :
    ValidCombo 1 0 ∧ (0 : ℕ) ≠ 100 ∧
    ((processPacketBin 1 0 0 0 fullPacketOnes).1 =
      ((List.range (ptCount 1 0)).filter (fun i =>
          decide (leU32at fullPacketOnes (18 + ptSize 1 0 * i + ptCheckOff 1 0)
            ≠ 0))).map
        (fun i => ⟨slice fullPacketOnes (18 + ptSize 1 0 * i) (ptSize 1 0),
          0 + tsFormula 1 0 i, markerT 1 0 i⟩) ∧
    (processPacketBin 1 0 0 0 fullPacketOnes).2.2 =
      (List.range (ptCount 1 0)).countP (fun i =>
        decide (leU32at fullPacketOnes (18 + ptSize 1 0 * i + ptCheckOff 1 0)
          = 0)) ∧
    ∀ r ∈ (processPacketBin 1 0 0 0 fullPacketOnes).1,
      leBytes (slice r.ptBytes (ptCheckOff 1 0) 4) ≠ 0) :=
  ⟨by decide, by decide,
    claim_C2_amended 1 0 0 0 fullPacketOnes (by decide) (by decide)⟩

/-- C4, amended: the timestamp stored with the packet's point `i` is
`t0 + tsFormula`, i.e. `t0 + i·Δ` with Δ = 10 μs for data-types 0/1, 4.167 μs
for data-type 2, 2.083 μs for data-type 4, `t0 + ⌊i/2⌋·10 μs` for dual-return
firmware and `t0 + ⌊i/3⌋·16.666 μs − 1 ns` for triple-return firmware (whose
pre-loop subtraction 16.667 μs differs from the in-loop increment 16.666 μs);
for spherical data-types 3 and 5 the pre-loop subtraction (4.167 μs resp.
2.083 μs) differs from the in-loop increment (10 μs), so point `i` is stamped
`t0 + i·10 μs + 5.833 μs` resp. `t0 + i·10 μs + 7.917 μs` and the first
record does not carry the packet timestamp. -/
theorem claim_C4_amended (fw dt dc : Nat) (t0 : ℚ) (pkt : List Nat)
    (h : ValidCombo fw dt) :
    (processPacketBin fw dt dc t0 pkt).1.map BinRecord.ts =
      ((List.range (ptCount fw dt)).filter (keepB fw dt dc pkt)).map
        (fun i => t0 + tsFormula fw dt i) := by
  rw [processPacketBin_spec fw dt dc t0 pkt h, List.map_map]
  rfl

/-- C4, counterexample: for a data-type-5 packet with packet timestamp 0, the
first record is stamped 7.917 μs, not the packet timestamp. -/
theorem claim_C4_counterexample :
    ((processPacketBin 1 5 0 0 cexPacketDT5).1.map BinRecord.ts).headD 0 =
      7917 / 1000000000 ∧ (7917 / 1000000000 : ℚ) ≠ 0 := by
  have hs := processPacketBin_spec 1 5 0 0 cexPacketDT5 (by decide)
  have hk : (List.range (ptCount 1 5)).filter (keepB 1 5 0 cexPacketDT5)
      = List.range 48 := by decide
  have hr : List.range 48 = 0 :: List.range' 1 47 := by decide
  constructor
  · simp only [hs, List.map_map, hk, hr, List.map_cons, List.headD_cons,
      Function.comp]
    norm_num [tsFormula]
  · norm_num

/-- Witness for C4 (amended) at firmware 1, data-type 0, on an all-ones
packet. -/
theorem claim_C4_amended_witness :
    ValidCombo 1 0 ∧
    ((processPacketBin 1 0 0 0 fullPacketOnes).1.map BinRecord.ts =
      ((List.range (ptCount 1 0)).filter (keepB 1 0 0 fullPacketOnes)).map
        (fun i => 0 + tsFormula 1 0 i)) :=
  ⟨by decide, claim_C4_amended 1 0 0 0 fullPacketOnes (by decide)⟩

/-- C5, amended: only dual- and triple-return firmware records (data-types 0
and 1) are written with a trailing ASCII return-number digit (`1 + i % 2`
resp. `1 + i % 3`); records of Horizon/Tele-15 dual-return data-types 4 and 5
are written as the raw 28- resp. 16-byte point bytes followed by the f64
timestamp only — both returns live inside one record and no return marker is
written. -/
theorem claim_C5_amended (fw dt dc : Nat) (t0 : ℚ) (pkt : List Nat)
    (h : ValidCombo fw dt) :
    (processPacketBin fw dt dc t0 pkt).1.map BinRecord.retNum =
      ((List.range (ptCount fw dt)).filter (keepB fw dt dc pkt)).map
        (fun i => markerT fw dt i) := by
  rw [processPacketBin_spec fw dt dc t0 pkt h, List.map_map]
  rfl

/-- C5, counterexample: a data-type-4 packet produces 48 records and none of
them carries a return-number digit — there are no consecutive pairs marked
'1' then '2'. -/
theorem claim_C5_counterexample :
    (processPacketBin 1 4 0 0 cexPacketDT4).1.map BinRecord.retNum =
      List.replicate 48 none ∧
    (processPacketBin 1 4 0 0 cexPacketDT4).1.length = 48 := by
  have hs := processPacketBin_spec 1 4 0 0 cexPacketDT4 (by decide)
  have hk : (List.range (ptCount 1 4)).filter (keepB 1 4 0 cexPacketDT4)
      = List.range 48 := by decide
  constructor
  · simp only [hs, List.map_map, hk]
    decide
  · simp only [hs, List.length_map, hk, List.length_range]

/-- Witness for C5 (amended) at dual-return firmware, data-type 0, on an
all-ones packet. -/
theorem claim_C5_amended_witness :
    ValidCombo 2 0 ∧
    ((processPacketBin 2 0 0 0 fullPacketOnes).1.map BinRecord.retNum =
      ((List.range (ptCount 2 0)).filter (keepB 2 0 0 fullPacketOnes)).map
        (fun i => markerT 2 0 i)) :=
  ⟨by decide, claim_C5_amended 2 0 0 0 fullPacketOnes (by decide)⟩

/-- The frame-type dispatch sets its flag exactly on {0, 1, 2}. -/
theorem cmdTypeMessage_snd (ft : Nat) :
    (cmdTypeMessage ft).2 = true ↔ (ft = 0 ∨ ft = 1 ∨ ft = 2) := by
  unfold cmdTypeMessage
  split_ifs with a b c <;> simp_all

/-- The command-set dispatch sets its flag exactly on {0, 1, 2}. -/
theorem cmdSetMessage_snd (cs : Nat) :
    (cmdSetMessage cs).2 = true ↔ (cs = 0 ∨ cs = 1 ∨ cs = 2) := by
  unfold cmdSetMessage
  split_ifs with a b c <;> simp_all

/-- C7, amended: `_parseResp` reports a frame well-formed exactly when the
CRC-16, CRC-32, SOF, version, length, frame-type and command-set conditions
all hold.  When a checksum or structural prefix check fails, all fields come
back empty; but when only the frame-type or command-set byte is invalid, the
frame is still reported malformed while the command id and payload (and the
other message string) are returned anyway. -/
theorem claim_C7_amended (bs : List Nat) (_hlen : 15 ≤ bs.length) :
    ((parseResp bs).goodData = true ↔ FrameChecks bs) ∧
    (¬PrefixChecks bs → parseResp bs = ⟨false, "", "", "", []⟩) ∧
    (PrefixChecks bs →
      (parseResp bs).dataID = toString (bs.getD 10 0) ∧
      (parseResp bs).data = bs.drop 11) := by
  by_cases h16 : stored16 bs = crc16livox (slice bs 0 7)
  · by_cases h32 : stored32 bs = crc32livox (slice bs 0 (bs.length - 4))
    · by_cases hsof : bs.getD 0 0 = 170
      · by_cases hver : bs.getD 1 0 = 1
        · by_cases hlf : lengthField bs ≤ 1400
          · have hpf : PrefixChecks bs := ⟨h16, h32, hsof, hver, hlf⟩
            refine ⟨?_, fun hn => absurd hpf hn, fun _ => ⟨?_, ?_⟩⟩
            · simp only [parseResp, if_pos h16, if_pos h32, if_pos hsof,
                if_pos hver, if_pos hlf]
              rw [Bool.and_eq_true, cmdTypeMessage_snd, cmdSetMessage_snd]
              unfold FrameChecks
              simp [hpf]
            · simp only [parseResp, if_pos h16, if_pos h32, if_pos hsof,
                if_pos hver, if_pos hlf]
            · simp only [parseResp, if_pos h16, if_pos h32, if_pos hsof,
                if_pos hver, if_pos hlf]
          · have hpf : ¬PrefixChecks bs := fun hp => hlf hp.2.2.2.2
            have hfc : ¬FrameChecks bs := fun hf => hpf hf.1
            refine ⟨?_, fun _ => ?_, fun hp => absurd hp hpf⟩ <;>
              simp only [parseResp, if_pos h16, if_pos h32, if_pos hsof,
                if_pos hver, if_neg hlf]
            simp [hfc]
        · have hpf : ¬PrefixChecks bs := fun hp => hver hp.2.2.2.1
          have hfc : ¬FrameChecks bs := fun hf => hpf hf.1
          refine ⟨?_, fun _ => ?_, fun hp => absurd hp hpf⟩ <;>
            simp only [parseResp, if_pos h16, if_pos h32, if_pos hsof,
              if_neg hver]
          simp [hfc]
      · have hpf : ¬PrefixChecks bs := fun hp => hsof hp.2.2.1
        have hfc : ¬FrameChecks bs := fun hf => hpf hf.1
        refine ⟨?_, fun _ => ?_, fun hp => absurd hp hpf⟩ <;>
          simp only [parseResp, if_pos h16, if_pos h32, if_neg hsof]
        simp [hfc]
    · have hpf : ¬PrefixChecks bs := fun hp => h32 hp.2.1
      have hfc : ¬FrameChecks bs := fun hf => hpf hf.1
      refine ⟨?_, fun _ => ?_, fun hp => absurd hp hpf⟩ <;>
        simp only [parseResp, if_pos h16, if_neg h32]
      simp [hfc]
  · have hpf : ¬PrefixChecks bs := fun hp => h16 hp.1
    have hfc : ¬FrameChecks bs := fun hf => hpf hf.1
    refine ⟨?_, fun _ => ?_, fun hp => absurd hp hpf⟩ <;>
      simp only [parseResp, if_neg h16]
    simp [hfc]

/-- C7, counterexample: a frame whose checksums, SOF, version and length are
all valid but whose frame-type byte is 3 is reported malformed, yet its
command id and payload are returned — fields do come back for a malformed
frame, contradicting "no fields are returned". -/
theorem claim_C7_counterexample :
    (parseResp frameBadType).goodData = false ∧
    (parseResp frameBadType).dataID = "3" ∧
    (parseResp frameBadType).data = [108, 87, 159, 43] :=
  ⟨by decide, by decide, by decide⟩

/-- Witness for C7 (amended) at the concrete heartbeat ACK frame. -/
theorem claim_C7_amended_witness :
    15 ≤ hbAckWork4.length ∧
    (((parseResp hbAckWork4).goodData = true ↔ FrameChecks hbAckWork4) ∧
     (¬PrefixChecks hbAckWork4 →
       parseResp hbAckWork4 = ⟨false, "", "", "", []⟩) ∧
     (PrefixChecks hbAckWork4 →
       (parseResp hbAckWork4).dataID = toString (hbAckWork4.getD 10 0) ∧
       (parseResp hbAckWork4).data = hbAckWork4.drop 11)) :=
  ⟨by decide, claim_C7_amended hbAckWork4 (by decide)⟩

/-- Witness for C3 (amended) at firmware 1 and 10 s. -/
theorem claim_C3_amended_witness :
    ((1 : ℕ) = 1 ∨ (1 : ℕ) = 2 ∨ (1 : ℕ) = 3) ∧ (0 : ℚ) < 10 ∧
    (10 : ℚ) < 126230400 ∧
    (captureDuration 0 1 10 = 10 * (1 + kFactor 1 / 2) ∧
      captureDuration 1 1 10 = 10 * (1 + kFactor 1 / 2) ∧
      captureDuration 2 1 10 = 10) :=
  ⟨Or.inl rfl, by norm_num, by norm_num,
    claim_C3_amended 1 (Or.inl rfl) 10 (by norm_num) (by norm_num)⟩

end OpenPyLivox
